import Mathlib

/-!
Verification of the fetch-normalize-persist pipeline of the ArChange
repository (src/app/fetch_exchange.py, src/app/job.py, src/app/config.py,
src/app/main.py). The pipeline is embedded as a pure function of the
upstream HTTP behaviour and of the persistence gateway's behaviour; decimal
arithmetic is modelled as exact rational arithmetic.
-/

namespace ArChange

/-- JSON values as decoded by the HTTP client. A number carries the exact
rational value of its decimal string form, mirroring the pipeline's
conversion of each price through the decimal constructor applied to the
value's string representation. An object is an association list with
distinct keys, as produced by the JSON decoder. -/
inductive Json where
  | num (v : ℚ)
  | str (s : String)
  | bool (b : Bool)
  | null
  | arr (elems : List Json)
  | obj (fields : List (String × Json))

def Json.isObj : Json → Bool
  | .obj _ => true
  | _ => false

/-- Exceptions the pipeline's handlers can observe. Messages of runtime
exceptions are schematic; a database failure carries the gateway's message,
which is what the per-item handler interpolates into its error entry. -/
inductive PyExc where
  | attributeError
  | typeError
  | invalidOperation
  | dbError (msg : String)

/-- str(e) for a caught exception. -/
def PyExc.msg : PyExc → String
  | .attributeError => "object has no attribute get"
  | .typeError => "object is not iterable"
  | .invalidOperation => "InvalidOperation"
  | .dbError m => m

/-- item.get(key, default): the bound value, or the default when the key is
absent; raises AttributeError (modelled as none) when the receiver is not an
object. -/
def pyGet : Json → String → Json → Option Json
  | .obj kvs, k, d => some ((kvs.lookup k).getD d)
  | _, _, _ => none

/-- Lookup-with-default on an object's fields (the total case of pyGet). -/
def getD (kvs : List (String × Json)) (k : String) (d : Json) : Json :=
  (kvs.lookup k).getD d

/-- The record built from one upstream item (the DolarApiRate construction
in fetch_exchange.py; plain field storage, no coercion). -/
structure DolarApiRate where
  moneda : Json
  nombre : Json
  casa : Json
  compra : Json
  venta : Json
  fechaActualizacion : Json

/-- The DolarApiRate construction for an item known to be an object, with
the defaults of fetch_exchange.py lines 32-39. -/
def mkRateObj (kvs : List (String × Json)) : DolarApiRate :=
  { moneda := getD kvs ("moneda") (.str ("USD"))
    nombre := getD kvs ("nombre") (.str (""))
    casa := getD kvs ("casa") (.str ("unknown"))
    compra := getD kvs ("compra") (.num 0)
    venta := getD kvs ("venta") (.num 0)
    fechaActualizacion := getD kvs ("fechaActualizacion") (.str ("")) }

/-- The DolarApiRate construction on an arbitrary item: the keyword-argument
item.get calls raise AttributeError when the item is not an object. -/
def mkDolarApiRate : Json → Option DolarApiRate
  | .obj kvs => some (mkRateObj kvs)
  | _ => none

/-- Value of a list of ASCII digits. -/
def digitsVal (l : List Char) : ℕ :=
  l.foldl (fun a c => 10 * a + (c.toNat - 48)) 0

/-- Unsigned decimal literal: digits with an optional fractional part,
split at the first dot of the character list. -/
def decCore (t : List Char) : Option ℚ :=
  let i := t.takeWhile (fun c => c != '.')
  match t.dropWhile (fun c => c != '.') with
  | [] =>
      if i.length != 0 && i.all Char.isDigit then
        some ((digitsVal i : ℚ))
      else none
  | _ :: f =>
      if !(f.contains '.') && (i.length != 0 || f.length != 0)
          && i.all Char.isDigit && f.all Char.isDigit then
        some ((digitsVal i : ℚ) + (digitsVal f : ℚ) / (10 : ℚ) ^ f.length)
      else none

/-- Decimal(s) on a plain decimal literal (optional sign, digits, optional
fraction). Exotic accepted spellings (exponents, NaN, Infinity) are outside
the modelled fragment; no input in scope produces them. -/
def decOfString (s : String) : Option ℚ :=
  match s.data with
  | '-' :: t => (decCore t).map (fun q => -q)
  | '+' :: t => decCore t
  | t => decCore t

/-- Decimal(str(v)) for a decoded value v: exact for numbers (the string
form of a decoded number re-reads to its exact decimal value), a literal
parse for strings, and InvalidOperation (none) for every other shape, whose
str() form is not a decimal literal. Decimal arithmetic is modelled as exact
rational arithmetic (the context precision is never exceeded by the
magnitudes in scope). -/
def pyDecimalOfStr : Json → Option ℚ
  | .num q => some q
  | .str s => decOfString s
  | _ => none

/-- One row passed to db.insert_exchange(type, buy, sell, rate, diff). -/
structure ExchangeRow where
  type : Json
  buy : ℚ
  sell : ℚ
  rate : ℚ
  diff : ℚ

/-- State of one fetch cycle: number of insert calls issued so far,
inserted_count, the errors, exchanges lists, and the rows actually persisted
(the gateway's observable side effect). -/
structure RunState where
  calls : ℕ
  inserted : ℕ
  errors : List String
  exchanges : List DolarApiRate
  persisted : List ExchangeRow

def initState : RunState := ⟨0, 0, [], [], []⟩

/-- Behaviour of db.insert_exchange on the k-th insert call of the cycle:
none means the call returns an id, some m means it raises an exception whose
str() is m. -/
abbrev Gateway := ℕ → Option String

/-- str(v) as interpolated into the per-item error entry. The rendering of
numeric and composite values is schematic; no behaviour in scope depends on
it. -/
def pyStr : Json → String
  | .str s => s
  | .bool b => if b then "True" else "False"
  | .null => "None"
  | .num _ => "<number>"
  | .arr _ => "<list>"
  | .obj _ => "<dict>"

/-- The f-string appended to errors on a caught per-item failure:
Error inserting {item.get(casa, unknown)}: {str(e)}. -/
def errEntry (kvs : List (String × Json)) (e : PyExc) : String :=
  "Error inserting " ++ pyStr (getD kvs ("casa") (.str ("unknown"))) ++ ": " ++ e.msg

/-- One iteration of the per-item loop (the inner try/except of
fetch_exchange.py lines 30-59). Returns the state after the iteration and
the exception escaping it, if any: an escape happens exactly when the item
is not an object, because then the except handler's own item.get raises a
fresh AttributeError. List mutations made before a caught exception (the
exchanges append, a completed insert) survive it. -/
def processItem (g : Gateway) (st : RunState) (item : Json) : RunState × Option PyExc :=
  match item with
  | .obj kvs =>
      match pyDecimalOfStr (mkRateObj kvs).compra with
      | none =>
          ({ st with
              exchanges := st.exchanges ++ [mkRateObj kvs]
              errors := st.errors ++ [errEntry kvs .invalidOperation] }, none)
      | some buy =>
          match pyDecimalOfStr (mkRateObj kvs).venta with
          | none =>
              ({ st with
                  exchanges := st.exchanges ++ [mkRateObj kvs]
                  errors := st.errors ++ [errEntry kvs .invalidOperation] }, none)
          | some sell =>
              match g st.calls with
              | some m =>
                  ({ st with
                      calls := st.calls + 1
                      exchanges := st.exchanges ++ [mkRateObj kvs]
                      errors := st.errors ++ [errEntry kvs (.dbError m)] }, none)
              | none =>
                  ({ st with
                      calls := st.calls + 1
                      inserted := st.inserted + 1
                      exchanges := st.exchanges ++ [mkRateObj kvs]
                      persisted := st.persisted ++
                        [⟨(mkRateObj kvs).casa, buy, sell, (buy + sell) / 2, sell - buy⟩] }, none)
  | _ => (st, some .attributeError)

/-- The per-item loop: processes items in order until one escapes. -/
def runLoop (g : Gateway) : List Json → RunState → RunState × Option PyExc
  | [], st => (st, none)
  | item :: rest, st =>
      match processItem g st item with
      | (st1, none) => runLoop g rest st1
      | (st1, some e) => (st1, some e)

/-- Python iteration over the decoded body: arrays yield their elements,
objects their keys, strings their characters; other values raise TypeError.
len(data) equals the length of the yielded list in every non-raising case. -/
def pyIter : Json → Except PyExc (List Json)
  | .arr xs => .ok xs
  | .obj kvs => .ok (kvs.map (fun kv => Json.str kv.1))
  | .str s => .ok (s.data.map (fun c => Json.str (String.mk [c])))
  | _ => .error .typeError

/-- Observable behaviour of the upstream call (httpx.get + raise_for_status
+ response.json()): a transport-level httpx.HTTPError (timeout, connection
refused, non-2xx), a body that fails to parse (ValueError from json()), or a
decoded payload. -/
inductive Upstream where
  | httpError (msg : String)
  | jsonError (msg : String)
  | payload (data : Json)

/-- The dict returned by fetch_and_store_exchange_rates: the ok shape
carries inserted, total, the exchanges list and errors (None when empty);
the error shape carries only status and message. -/
inductive FetchOutcome where
  | ok (inserted : ℕ) (total : ℕ) (exchanges : List DolarApiRate)
      (errors : Option (List String))
  | error (message : String)

def FetchOutcome.statusOf : FetchOutcome → String
  | .ok _ _ _ _ => "ok"
  | .error _ => "error"

/-- The exchanges field of an outcome, when the outcome has one. -/
def FetchOutcome.exchangesOf : FetchOutcome → Option (List DolarApiRate)
  | .ok _ _ ex _ => some ex
  | .error _ => none

/-- fetch_and_store_exchange_rates as a function of the gateway behaviour
and the upstream behaviour. The second component is the list of rows
persisted during the cycle (the pipeline's side effect on the store). -/
def fetch_and_store_exchange_rates (g : Gateway) (up : Upstream) :
    FetchOutcome × List ExchangeRow :=
  match up with
  | .httpError m => (.error ("HTTP error fetching data: " ++ m), [])
  | .jsonError m => (.error ("Error: " ++ m), [])
  | .payload data =>
      match pyIter data with
      | .error e => (.error ("Error: " ++ e.msg), [])
      | .ok items =>
          match runLoop g items initState with
          | (st, none) =>
              (.ok st.inserted items.length st.exchanges
                (if st.errors = [] then none else some st.errors), st.persisted)
          | (st, some e) => (.error ("Error: " ++ e.msg), st.persisted)

/-- run_job (src/app/job.py): calls the pipeline when the import of
fetch_and_store_exchange_rates succeeded, otherwise returns the
unavailability outcome; its own handler turns any escaping exception into an
error outcome (none escapes in the model, since the pipeline catches
everything). -/
def run_job (available : Bool) (g : Gateway) (up : Upstream) :
    FetchOutcome × List ExchangeRow :=
  if available then fetch_and_store_exchange_rates g up
  else (.error ("fetch_and_store_exchange_rates not available"), [])

/-- The process environment. -/
abbrev Env := String → Option String

/-- os.getenv(key, default). -/
def getenv (env : Env) (k d : String) : String := (env k).getD d

/-- Unsigned integer literal: one or more digits. -/
def intCore (t : List Char) : Option ℕ :=
  if t.length != 0 && t.all Char.isDigit then some (digitsVal t)
  else none

/-- int(s) on a plain integer literal (optional sign, digits); other
spellings are outside the modelled fragment. -/
def pyIntOfString (s : String) : Option ℤ :=
  match s.data with
  | '-' :: t => (intCore t).map (fun n => -(n : ℤ))
  | '+' :: t => (intCore t).map (fun n => (n : ℤ))
  | t => (intCore t).map (fun n => (n : ℤ))

/-- config.SCHEDULER_INTERVAL_HOURS (src/app/config.py line 18). -/
def SCHEDULER_INTERVAL_HOURS (env : Env) : Option ℤ :=
  pyIntOfString (getenv env ("SCHEDULER_INTERVAL_HOURS") ("2"))

/-- A registered periodic job: its identifier and its interval in hours. -/
structure SchedJob where
  id : String
  intervalHours : ℕ

/-- Modelled from the spec: APScheduler's add_job registration semantics
(the scheduler library is an external collaborator, not in the repository).
Registering under an existing identifier replaces the registration when
replace_existing is set and is otherwise a conflicting-id error; a new
identifier is appended. -/
def add_job (jobs : List SchedJob) (j : SchedJob) (replaceExisting : Bool) :
    Except String (List SchedJob) :=
  if jobs.any (fun o => o.id == j.id) then
    if replaceExisting then
      .ok (jobs.map (fun o => if o.id == j.id then j else o))
    else .error ("ConflictingIdError")
  else .ok (jobs ++ [j])

/-- The scheduler registration in startup_event (src/app/main.py lines
111-117): add_job(scheduled_task, interval, hours=2, id=demo_scheduled_job,
replace_existing=True), with registration errors swallowed by the
surrounding try/except. The interval is the literal 2; the configuration
value is not consulted. -/
def startup_register (jobs : List SchedJob) : List SchedJob :=
  match add_job jobs ⟨"demo_scheduled_job", 2⟩ true with
  | .ok js => js
  | .error _ => jobs

/-! Statement vocabulary: counting successful gateway calls, and the
per-item descriptions of the loop's outputs. -/

/-- Number of successful gateway calls among the d consecutive call indices
starting at a. -/
def countSucc (g : Gateway) (a d : ℕ) : ℕ :=
  ((List.range d).filter (fun j => (g (a + j)).isNone)).length

/-- The DolarApiRate record the loop builds for an item (non-objects never
contribute to an ok outcome). -/
def exOf (item : Json) : DolarApiRate :=
  match item with
  | .obj kvs => mkRateObj kvs
  | _ => ⟨.null, .null, .null, .null, .null, .null⟩

/-- An item reaches the gateway call exactly when it is an object whose two
defaulted prices convert to decimals. -/
def reachesInsert (item : Json) : Bool :=
  match item with
  | .obj kvs =>
      (pyDecimalOfStr (mkRateObj kvs).compra).isSome
        && (pyDecimalOfStr (mkRateObj kvs).venta).isSome
  | _ => false

def goodItems (xs : List Json) : Bool := xs.all reachesInsert

/-- The row the mapper derives from an object item whose prices convert. -/
def rowOfObj (kvs : List (String × Json)) : ExchangeRow :=
  { type := (mkRateObj kvs).casa
    buy := (pyDecimalOfStr (mkRateObj kvs).compra).getD 0
    sell := (pyDecimalOfStr (mkRateObj kvs).venta).getD 0
    rate := ((pyDecimalOfStr (mkRateObj kvs).compra).getD 0
        + (pyDecimalOfStr (mkRateObj kvs).venta).getD 0) / 2
    diff := (pyDecimalOfStr (mkRateObj kvs).venta).getD 0
        - (pyDecimalOfStr (mkRateObj kvs).compra).getD 0 }

/-- The rows persisted for a list of insert-reaching items against gateway
g, starting at call index k. -/
def expectedRows (g : Gateway) : List Json → ℕ → List ExchangeRow
  | [], _ => []
  | item :: rest, k =>
      match item with
      | .obj kvs =>
          match g k with
          | none => rowOfObj kvs :: expectedRows g rest (k + 1)
          | some _ => expectedRows g rest (k + 1)
      | _ => []

/-- The error entries collected for a list of insert-reaching items against
gateway g, starting at call index k: one entry per failed insert, naming the
item's casa. -/
def expectedErrors (g : Gateway) : List Json → ℕ → List String
  | [], _ => []
  | item :: rest, k =>
      match item with
      | .obj kvs =>
          match g k with
          | none => expectedErrors g rest (k + 1)
          | some m => errEntry kvs (.dbError m) :: expectedErrors g rest (k + 1)
      | _ => []

/-- Upstream behaviours within the documented interface: a transport or
parse failure, or a decoded array whose elements are all objects. -/
def goodUpstream : Upstream → Bool
  | .httpError _ => true
  | .jsonError _ => true
  | .payload (.arr xs) => xs.all Json.isObj
  | .payload _ => false

/-! Helper lemmas. -/

lemma countSucc_zero (g : Gateway) (a : ℕ) : countSucc g a 0 = 0 := rfl

lemma countSucc_succ (g : Gateway) (a d : ℕ) :
    countSucc g a (d + 1) =
      countSucc g a d + (if (g (a + d)).isNone then 1 else 0) := by
  unfold countSucc
  rw [List.range_succ, List.filter_append, List.length_append]
  cases hg : g (a + d) <;> simp [List.filter, hg]

lemma countSucc_one (g : Gateway) (a : ℕ) :
    countSucc g a 1 = if (g a).isNone then 1 else 0 := by
  have h := countSucc_succ g a 0
  simpa [countSucc_zero] using h

lemma countSucc_add (g : Gateway) (a d1 : ℕ) : ∀ d2 : ℕ,
    countSucc g a (d1 + d2) = countSucc g a d1 + countSucc g (a + d1) d2
  | 0 => by simp [countSucc_zero]
  | d2 + 1 => by
      rw [← Nat.add_assoc, countSucc_succ, countSucc_add g a d1 d2, countSucc_succ,
        Nat.add_assoc a d1 d2]
      omega

lemma countSucc_le (g : Gateway) (a d : ℕ) : countSucc g a d ≤ d := by
  unfold countSucc
  calc ((List.range d).filter (fun j => (g (a + j)).isNone)).length
      ≤ (List.range d).length := List.length_filter_le _ _
    _ = d := List.length_range d

/-- Per-iteration accounting: one iteration issues at most one gateway call,
and raises inserted_count and the persisted-row count exactly when that call
succeeds. -/
lemma processItem_spec (g : Gateway) (st : RunState) (item : Json) :
    ∃ d, d ≤ 1 ∧
      (processItem g st item).1.calls = st.calls + d ∧
      (processItem g st item).1.inserted = st.inserted + countSucc g st.calls d ∧
      (processItem g st item).1.persisted.length
        = st.persisted.length + countSucc g st.calls d := by
  cases item with
  | obj kvs =>
      cases hb : pyDecimalOfStr (mkRateObj kvs).compra with
      | none => exact ⟨0, Nat.zero_le 1, by simp [processItem, hb, countSucc_zero]⟩
      | some buy =>
          cases hs : pyDecimalOfStr (mkRateObj kvs).venta with
          | none => exact ⟨0, Nat.zero_le 1, by simp [processItem, hb, hs, countSucc_zero]⟩
          | some sell =>
              cases hg : g st.calls with
              | none =>
                  exact ⟨1, Nat.le_refl 1, by simp [processItem, hb, hs, hg, countSucc_one]⟩
              | some m =>
                  exact ⟨1, Nat.le_refl 1, by simp [processItem, hb, hs, hg, countSucc_one]⟩
  | num v => exact ⟨0, Nat.zero_le 1, by simp [processItem, countSucc_zero]⟩
  | str s => exact ⟨0, Nat.zero_le 1, by simp [processItem, countSucc_zero]⟩
  | bool b => exact ⟨0, Nat.zero_le 1, by simp [processItem, countSucc_zero]⟩
  | null => exact ⟨0, Nat.zero_le 1, by simp [processItem, countSucc_zero]⟩
  | arr elems => exact ⟨0, Nat.zero_le 1, by simp [processItem, countSucc_zero]⟩

/-- Loop accounting: over a list of items the loop issues at most one call
per item, and inserted_count and the persisted-row count both grow by the
number of successful calls. -/
lemma runLoop_spec (g : Gateway) (xs : List Json) : ∀ st : RunState,
    ∃ d, d ≤ xs.length ∧
      (runLoop g xs st).1.calls = st.calls + d ∧
      (runLoop g xs st).1.inserted = st.inserted + countSucc g st.calls d ∧
      (runLoop g xs st).1.persisted.length
        = st.persisted.length + countSucc g st.calls d := by
  induction xs with
  | nil => exact fun st => ⟨0, Nat.le_refl 0, by simp [runLoop, countSucc_zero]⟩
  | cons item rest ih =>
      intro st
      obtain ⟨d1, hd1, hc1, hi1, hp1⟩ := processItem_spec g st item
      rcases hp : processItem g st item with ⟨st1, e⟩
      rw [hp] at hc1 hi1 hp1
      cases e with
      | some e =>
          refine ⟨d1, ?_, ?_, ?_, ?_⟩
          · exact Nat.le_trans hd1 (by simp)
          · simpa [runLoop, hp] using hc1
          · simpa [runLoop, hp] using hi1
          · simpa [runLoop, hp] using hp1
      | none =>
          obtain ⟨d2, hd2, hc2, hi2, hp2⟩ := ih st1
          refine ⟨d1 + d2, ?_, ?_, ?_, ?_⟩
          · simp only [List.length_cons]; omega
          · simp only [runLoop, hp]; rw [hc2, hc1]; omega
          · simp only [runLoop, hp]
            rw [hi2, hi1, hc1, countSucc_add]
            omega
          · simp only [runLoop, hp]
            rw [hp2, hp1, hc1, countSucc_add]
            omega

lemma countSucc_shift (g : Gateway) (a d : ℕ) :
    countSucc g a (d + 1) = (if (g a).isNone then 1 else 0) + countSucc g (a + 1) d := by
  rw [Nat.add_comm d 1, countSucc_add g a 1 d, countSucc_one]

/-- An object item never escapes the inner handler, and is always appended
to the exchanges list, whatever the gateway does. -/
lemma processItem_obj (g : Gateway) (st : RunState) (kvs : List (String × Json)) :
    (processItem g st (.obj kvs)).2 = none ∧
    (processItem g st (.obj kvs)).1.exchanges = st.exchanges ++ [mkRateObj kvs] := by
  cases hb : pyDecimalOfStr (mkRateObj kvs).compra with
  | none => simp [processItem, hb]
  | some buy =>
      cases hs : pyDecimalOfStr (mkRateObj kvs).venta with
      | none => simp [processItem, hb, hs]
      | some sell =>
          cases hg : g st.calls with
          | none => simp [processItem, hb, hs, hg]
          | some m => simp [processItem, hb, hs, hg]

/-- Over an all-objects item list the loop never escapes, and the exchanges
list extends by one record per item, in order, independent of the gateway's
behaviour. -/
lemma runLoop_objs (g : Gateway) (xs : List Json) : ∀ st : RunState,
    xs.all Json.isObj = true →
    (runLoop g xs st).2 = none ∧
    (runLoop g xs st).1.exchanges = st.exchanges ++ xs.map exOf := by
  induction xs with
  | nil => intro st _; simp [runLoop]
  | cons item rest ih =>
      intro st h
      simp only [List.all_cons, Bool.and_eq_true] at h
      obtain ⟨h1, h2⟩ := h
      cases item with
      | obj kvs =>
          obtain ⟨he, hex⟩ := processItem_obj g st kvs
          rcases hp : processItem g st (.obj kvs) with ⟨st1, e⟩
          rw [hp] at he hex
          simp only at he hex
          subst he
          obtain ⟨ih1, ih2⟩ := ih st1 h2
          refine ⟨?_, ?_⟩
          · simpa [runLoop, hp] using ih1
          · simp only [runLoop, hp]
            rw [ih2, hex]
            simp [exOf, List.append_assoc]
      | num v => simp [Json.isObj] at h1
      | str s => simp [Json.isObj] at h1
      | bool b => simp [Json.isObj] at h1
      | null => simp [Json.isObj] at h1
      | arr elems => simp [Json.isObj] at h1

/-- Full description of the loop on insert-reaching items: every item is
processed in order, each issues exactly one gateway call; a failed call adds
its error entry, a successful one its derived row. -/
lemma runLoop_good (g : Gateway) (xs : List Json) : ∀ st : RunState,
    goodItems xs = true →
    runLoop g xs st =
      ({ calls := st.calls + xs.length
         inserted := st.inserted + countSucc g st.calls xs.length
         errors := st.errors ++ expectedErrors g xs st.calls
         exchanges := st.exchanges ++ xs.map exOf
         persisted := st.persisted ++ expectedRows g xs st.calls }, none) := by
  induction xs with
  | nil =>
      intro st _
      simp [runLoop, expectedErrors, expectedRows, countSucc_zero]
  | cons item rest ih =>
      intro st h
      simp only [goodItems, List.all_cons, Bool.and_eq_true] at h
      obtain ⟨h1, h2⟩ := h
      cases item with
      | obj kvs =>
          simp only [reachesInsert, Bool.and_eq_true, Option.isSome_iff_exists] at h1
          obtain ⟨⟨buy, hb⟩, ⟨sell, hs⟩⟩ := h1
          cases hg : g st.calls with
          | some m =>
              simp only [runLoop, processItem, hb, hs, hg]
              rw [ih _ h2]
              simp only [Prod.mk.injEq, RunState.mk.injEq]
              refine ⟨⟨?_, ?_, ?_, ?_, ?_⟩, trivial⟩
              · simp only [List.length_cons]; omega
              · simp only [List.length_cons]; rw [countSucc_shift]; simp [hg]
              · simp [expectedErrors, hg, List.append_assoc]
              · simp [exOf, List.append_assoc]
              · simp [expectedRows, hg]
          | none =>
              simp only [runLoop, processItem, hb, hs, hg]
              rw [ih _ h2]
              simp only [Prod.mk.injEq, RunState.mk.injEq]
              refine ⟨⟨?_, ?_, ?_, ?_, ?_⟩, trivial⟩
              · simp only [List.length_cons]; omega
              · simp only [List.length_cons]; rw [countSucc_shift]; simp [hg]; omega
              · simp [expectedErrors, hg]
              · simp [exOf, List.append_assoc]
              · simp [expectedRows, hg, rowOfObj, hb, hs, List.append_assoc]
      | num v => simp [reachesInsert] at h1
      | str s => simp [reachesInsert] at h1
      | bool b => simp [reachesInsert] at h1
      | null => simp [reachesInsert] at h1
      | arr elems => simp [reachesInsert] at h1

/-! Concrete inputs for instantiations. -/

def sampleItem1 : Json :=
  .obj [("moneda", .str "USD"), ("nombre", .str "Blue"), ("casa", .str "blue"),
        ("compra", .num 1415), ("venta", .num 1435), ("fechaActualizacion", .str "t1")]

def sampleItem2 : Json :=
  .obj [("moneda", .str "USD"), ("nombre", .str "Oficial"), ("casa", .str "oficial"),
        ("compra", .num 1425), ("venta", .num 1475), ("fechaActualizacion", .str "t2")]

/-- Gateway on which every insert call succeeds. -/
def gAllOk : Gateway := fun _ => none

/-- Gateway on which the first insert call succeeds and every later one
raises a DB error. -/
def gFailSecond : Gateway := fun k => if k == 0 then none else some ("DB error")

/-- An upstream body that parses as a JSON array whose second element is a
bare number rather than an object. -/
def mixedArray : Json :=
  .arr [Json.obj [("casa", Json.str "blue"), ("compra", Json.num 100), ("venta", Json.num 200)],
        Json.num 42]

/-! Claim theorems. -/

/-- C1: for an upstream response parsing as a JSON array of N items, a run
returning status ok yields total = N and inserted ≤ N, with inserted equal
to the number of persisted rows, which is the number of successful gateway
insert calls among the c calls the run issued (one call per item that
reached persistence). -/
theorem C1_successful_run_counts (g : Gateway) (xs : List Json) (i t : ℕ)
    (ex : List DolarApiRate) (er : Option (List String)) (rows : List ExchangeRow)
    (h : fetch_and_store_exchange_rates g (.payload (.arr xs)) = (.ok i t ex er, rows)) :
    t = xs.length ∧ i ≤ xs.length ∧ i = rows.length ∧
      ∃ c, c ≤ xs.length ∧ i = countSucc g 0 c := by
  obtain ⟨d, hd, hc, hi, hp⟩ := runLoop_spec g xs initState
  rcases hr : runLoop g xs initState with ⟨st, e⟩
  rw [hr] at hc hi hp
  simp only [initState] at hc hi hp
  cases e with
  | some e =>
      simp only [fetch_and_store_exchange_rates, pyIter, hr] at h
      simp at h
  | none =>
      simp only [fetch_and_store_exchange_rates, pyIter, hr] at h
      simp only [Prod.mk.injEq, FetchOutcome.ok.injEq] at h
      obtain ⟨⟨h1, h2, h3, h4⟩, h5⟩ := h
      refine ⟨h2.symm, ?_, ?_, d, hd, ?_⟩
      · rw [← h1, hi]
        simpa using Nat.le_trans (countSucc_le g 0 d) hd
      · rw [← h1, ← h5, hi, hp]
        simp
      · rw [← h1, hi]
        simp

/-- Witness for C1: a one-item array against an all-success gateway. -/
theorem C1_successful_run_counts_witness :
    1 = [sampleItem1].length ∧ 1 ≤ [sampleItem1].length ∧
      1 = [ExchangeRow.mk (.str "blue") 1415 1435 ((1415 + 1435) / 2) (1435 - 1415)].length ∧
      ∃ c, c ≤ [sampleItem1].length ∧ 1 = countSucc gAllOk 0 c :=
  C1_successful_run_counts gAllOk [sampleItem1] 1 1
    [⟨.str "USD", .str "Blue", .str "blue", .num 1415, .num 1435, .str "t1"⟩] none
    [⟨.str "blue", 1415, 1435, (1415 + 1435) / 2, 1435 - 1415⟩] rfl

/-- C2: every transport-level failure (httpx.HTTPError from the request or
from raise_for_status) and every body-parse failure short-circuits the
cycle: the outcome is the error shape, carrying only a message that
describes the failure, and no row is persisted. -/
theorem C2_transport_failure_short_circuits (g : Gateway) (m : String) :
    fetch_and_store_exchange_rates g (.httpError m)
        = (.error ("HTTP error fetching data: " ++ m), []) ∧
    fetch_and_store_exchange_rates g (.jsonError m)
        = (.error ("Error: " ++ m), []) :=
  ⟨rfl, rfl⟩

/-- C3: on an array of items that reach the insert call, the cycle returns
status ok whatever the gateway does; inserted counts exactly the successful
calls (one call per item, in order); a failed call leaves inserted
unchanged and contributes exactly one error entry naming the item's casa
(expectedErrors), and processing continues through the whole list: every
item appears in the outcome and every successful insert is persisted. -/
theorem C3_per_item_insert_failures_isolated (g : Gateway) (xs : List Json)
    (h : goodItems xs = true) :
    fetch_and_store_exchange_rates g (.payload (.arr xs)) =
      (.ok (countSucc g 0 xs.length) xs.length (xs.map exOf)
          (if expectedErrors g xs 0 = [] then none else some (expectedErrors g xs 0)),
       expectedRows g xs 0) := by
  simp only [fetch_and_store_exchange_rates, pyIter]
  rw [runLoop_good g xs initState h]
  simp [initState]

/-- Witness for C3: the spec's two-item scenario — the second insert fails,
and the cycle yields ok, inserted 1, total 2, errors naming the second
item's casa, with only the first row persisted. -/
theorem C3_per_item_insert_failures_isolated_witness :
    goodItems [sampleItem1, sampleItem2] = true ∧
    fetch_and_store_exchange_rates gFailSecond (.payload (.arr [sampleItem1, sampleItem2])) =
      (.ok 1 2
          [⟨.str "USD", .str "Blue", .str "blue", .num 1415, .num 1435, .str "t1"⟩,
           ⟨.str "USD", .str "Oficial", .str "oficial", .num 1425, .num 1475, .str "t2"⟩]
          (some ["Error inserting oficial: DB error"]),
       [⟨.str "blue", 1415, 1435, (1415 + 1435) / 2, 1435 - 1415⟩]) ∧
    ((1415 : ℚ) + 1435) / 2 = 1425 ∧ ((1435 : ℚ) - 1415) = 20 :=
  ⟨rfl, C3_per_item_insert_failures_isolated gFailSecond [sampleItem1, sampleItem2] rfl,
    by norm_num, by norm_num⟩

/-- C4: an item with numeric prices whose insert call succeeds is persisted
with buy = compra, sell = venta, rate = (buy + sell) / 2 and
diff = sell - buy, in exact decimal (rational) arithmetic. -/
theorem C4_rate_diff_exact (g : Gateway) (st : RunState)
    (kvs : List (String × Json)) (b s : ℚ)
    (hb : getD kvs ("compra") (.num 0) = .num b)
    (hs : getD kvs ("venta") (.num 0) = .num s)
    (hg : g st.calls = none) :
    processItem g st (.obj kvs) =
      ({ st with
          calls := st.calls + 1
          inserted := st.inserted + 1
          exchanges := st.exchanges ++ [mkRateObj kvs]
          persisted := st.persisted ++
            [⟨(mkRateObj kvs).casa, b, s, (b + s) / 2, s - b⟩] }, none) := by
  have hb2 : pyDecimalOfStr (mkRateObj kvs).compra = some b := by
    show pyDecimalOfStr (getD kvs ("compra") (.num 0)) = some b
    rw [hb]; rfl
  have hs2 : pyDecimalOfStr (mkRateObj kvs).venta = some s := by
    show pyDecimalOfStr (getD kvs ("venta") (.num 0)) = some s
    rw [hs]; rfl
  simp [processItem, hb2, hs2, hg]

/-- Witness for C4: buy 1400 and sell 1600 persist rate (1400 + 1600) / 2
and diff 1600 - 1400, which evaluate to exactly 1500 and 200. -/
theorem C4_rate_diff_exact_witness :
    processItem gAllOk initState
        (.obj [("casa", .str "blue"), ("compra", .num 1400), ("venta", .num 1600)]) =
      ({ calls := 1, inserted := 1, errors := [],
         exchanges := [mkRateObj [("casa", .str "blue"), ("compra", .num 1400),
            ("venta", .num 1600)]],
         persisted := [⟨.str "blue", 1400, 1600, (1400 + 1600) / 2, 1600 - 1400⟩] }, none) ∧
    ((1400 : ℚ) + 1600) / 2 = 1500 ∧ ((1600 : ℚ) - 1400) = 200 :=
  ⟨C4_rate_diff_exact gAllOk initState
      [("casa", .str "blue"), ("compra", .num 1400), ("venta", .num 1600)]
      1400 1600 rfl rfl rfl,
    by norm_num, by norm_num⟩

/-- C5 counterexample: an upstream body that parses as a JSON array whose
second element is a bare number. The first item's insert succeeds and its
row is persisted; the second item's item.get raises, and the per-item
except handler's own item.get raises again, escaping to the outer handler:
the cycle returns status error with one row already persisted —
contradicting the claim, which asserts zero persisted rows whenever
status=error, for any JSON value the endpoint may return. -/
theorem C5_counterexample_partial_insert_then_error :
    (fetch_and_store_exchange_rates gAllOk (.payload mixedArray)).1.statusOf = "error" ∧
    (fetch_and_store_exchange_rates gAllOk (.payload mixedArray)).2 =
      [⟨Json.str "blue", 100, 200, (100 + 200) / 2, 200 - 100⟩] :=
  ⟨rfl, rfl⟩

/-- C5 amended: within the documented upstream interface — a transport or
parse failure, or a body parsing as an array whose elements are all JSON
objects — a status=error outcome implies zero persisted rows, and arises
only from a transport or parse failure, never after a partial sequence of
successful inserts. -/
theorem C5_amended_error_implies_nothing_persisted (g : Gateway) (up : Upstream)
    (hup : goodUpstream up = true) (m : String)
    (he : (fetch_and_store_exchange_rates g up).1 = .error m) :
    (fetch_and_store_exchange_rates g up).2 = [] ∧
      ((∃ s, up = Upstream.httpError s) ∨ (∃ s, up = Upstream.jsonError s)) := by
  cases up with
  | httpError s => exact ⟨rfl, Or.inl ⟨s, rfl⟩⟩
  | jsonError s => exact ⟨rfl, Or.inr ⟨s, rfl⟩⟩
  | payload data =>
      cases data with
      | arr xs =>
          obtain ⟨h1, _⟩ := runLoop_objs g xs initState (by simpa [goodUpstream] using hup)
          rcases hr : runLoop g xs initState with ⟨st, e⟩
          rw [hr] at h1
          simp only at h1
          subst h1
          simp [fetch_and_store_exchange_rates, pyIter, hr] at he
      | num v => simp [goodUpstream] at hup
      | str s => simp [goodUpstream] at hup
      | bool b => simp [goodUpstream] at hup
      | null => simp [goodUpstream] at hup
      | obj kvs => simp [goodUpstream] at hup

/-- Witness for the amended C5 at a concrete transport failure. -/
theorem C5_amended_error_implies_nothing_persisted_witness :
    goodUpstream (.httpError "boom") = true ∧
    (fetch_and_store_exchange_rates gAllOk (.httpError "boom")).1
        = .error ("HTTP error fetching data: boom") ∧
    ((fetch_and_store_exchange_rates gAllOk (.httpError "boom")).2 = [] ∧
      ((∃ s, Upstream.httpError "boom" = Upstream.httpError s) ∨
        (∃ s, Upstream.httpError "boom" = Upstream.jsonError s))) :=
  ⟨rfl, rfl,
    C5_amended_error_implies_nothing_persisted gAllOk (.httpError "boom") rfl
      ("HTTP error fetching data: boom") rfl⟩

/-- C6: for an upstream array of (object) items, the returned outcome's
exchanges field lists every fetched item — mapped with the deserialization
defaults — in upstream response order, for every gateway behaviour, i.e.
independent of each item's insert succeeding or failing. -/
theorem C6_items_complete_in_order (g : Gateway) (xs : List Json)
    (h : xs.all Json.isObj = true) :
    (fetch_and_store_exchange_rates g (.payload (.arr xs))).1.exchangesOf
      = some (xs.map exOf) := by
  obtain ⟨h1, h2⟩ := runLoop_objs g xs initState h
  rcases hr : runLoop g xs initState with ⟨st, e⟩
  rw [hr] at h1 h2
  simp only at h1 h2
  subst h1
  simp only [fetch_and_store_exchange_rates, pyIter, hr, FetchOutcome.exchangesOf,
    Option.some.injEq]
  simpa [initState] using h2

/-- Witness for C6: both items appear, in order, although the second item's
insert fails. -/
theorem C6_items_complete_in_order_witness :
    ([sampleItem1, sampleItem2].all Json.isObj = true) ∧
    (fetch_and_store_exchange_rates gFailSecond
        (.payload (.arr [sampleItem1, sampleItem2]))).1.exchangesOf
      = some [⟨.str "USD", .str "Blue", .str "blue", .num 1415, .num 1435, .str "t1"⟩,
              ⟨.str "USD", .str "Oficial", .str "oficial", .num 1425, .num 1475, .str "t2"⟩] :=
  ⟨rfl, C6_items_complete_in_order gFailSecond [sampleItem1, sampleItem2] rfl⟩

/-- C7: the pipeline and its run_job wrapper always return an outcome whose
status is ok or error, for every availability flag, gateway behaviour and
upstream behaviour: each handler of the source is embedded, and every
failure path of the body resolves to a returned error outcome rather than
an escaping fault. -/
theorem C7_no_fault_past_boundary (available : Bool) (g : Gateway) (up : Upstream) :
    (run_job available g up).1.statusOf = "ok" ∨
    (run_job available g up).1.statusOf = "error" := by
  cases h : (run_job available g up).1 with
  | ok i t ex er => exact Or.inl rfl
  | error m => exact Or.inr rfl

/-- An environment that overrides the scheduler interval to 5 hours. -/
def env5 : Env := fun k => if k = "SCHEDULER_INTERVAL_HOURS" then some ("5") else none

/-- C8: the configuration value honours the environment override (here 5),
yet the startup registration installs the periodic job with the literal
2-hour interval — and does so for every prior scheduler state, since the
registration never consults the configuration. -/
theorem C8_interval_hardcoded_ignores_config :
    SCHEDULER_INTERVAL_HOURS env5 = some 5 ∧
    startup_register [] = [⟨"demo_scheduled_job", 2⟩] ∧
    ∀ jobs : List SchedJob,
      (startup_register jobs).any
        (fun j => j.id == "demo_scheduled_job" && j.intervalHours == 2) = true := by
  refine ⟨rfl, rfl, ?_⟩
  intro jobs
  simp only [startup_register, add_job]
  cases hany : jobs.any (fun o => o.id == "demo_scheduled_job") with
  | true =>
      simp only [hany, if_true]
      obtain ⟨o, ho, hid⟩ := List.any_eq_true.mp hany
      refine List.any_eq_true.mpr ⟨_, List.mem_map_of_mem _ ho, ?_⟩
      simp [hid]
  | false =>
      simp only [hany, Bool.false_eq_true, if_false]
      simp [List.any_append]

/-- C9: when at most one job carries the fixed identifier, the startup
registration leaves exactly one such job (replace_existing replaces rather
than duplicates), and running the registration again still leaves exactly
one — at no point do two periodic triggers for the identifier coexist. -/
theorem C9_reregistration_replaces (jobs : List SchedJob)
    (h : jobs.countP (fun j => j.id == "demo_scheduled_job") ≤ 1) :
    (startup_register jobs).countP (fun j => j.id == "demo_scheduled_job") = 1 ∧
    (startup_register (startup_register jobs)).countP
        (fun j => j.id == "demo_scheduled_job") = 1 := by
  have main : ∀ js : List SchedJob,
      js.countP (fun j => j.id == "demo_scheduled_job") ≤ 1 →
      (startup_register js).countP (fun j => j.id == "demo_scheduled_job") = 1 := by
    intro js hjs
    simp only [startup_register, add_job]
    cases hany : js.any (fun o => o.id == "demo_scheduled_job") with
    | true =>
        simp only [hany, if_true]
        have hpos : 0 < js.countP (fun j => j.id == "demo_scheduled_job") :=
          List.countP_pos_iff.mpr (List.any_eq_true.mp hany)
        have hmap : (js.map (fun o =>
            if o.id == "demo_scheduled_job" then (⟨"demo_scheduled_job", 2⟩ : SchedJob)
            else o)).countP (fun j => j.id == "demo_scheduled_job")
            = js.countP (fun j => j.id == "demo_scheduled_job") := by
          rw [List.countP_map]
          refine List.countP_congr ?_
          intro x _
          by_cases hx : x.id = "demo_scheduled_job" <;> simp [hx]
        rw [hmap]
        omega
    | false =>
        simp only [hany, Bool.false_eq_true, if_false]
        rw [List.countP_append]
        have hz : js.countP (fun j => j.id == "demo_scheduled_job") = 0 := by
          rw [List.countP_eq_zero]
          intro a ha hpa
          have hall : js.any (fun o => o.id == "demo_scheduled_job") = true :=
            List.any_eq_true.mpr ⟨a, ha, hpa⟩
          rw [hany] at hall
          exact Bool.false_ne_true hall
        rw [hz]
        rfl
  refine ⟨main jobs h, main _ ?_⟩
  rw [main jobs h]

/-- Witness for C9 at the empty scheduler state. -/
theorem C9_reregistration_replaces_witness :
    ([] : List SchedJob).countP (fun j => j.id == "demo_scheduled_job") ≤ 1 ∧
    (startup_register []).countP (fun j => j.id == "demo_scheduled_job") = 1 ∧
    (startup_register (startup_register [])).countP
        (fun j => j.id == "demo_scheduled_job") = 1 :=
  ⟨Nat.zero_le 1, (C9_reregistration_replaces [] (Nat.zero_le 1)).1,
    (C9_reregistration_replaces [] (Nat.zero_le 1)).2⟩

/-- C10: a missing compra or venta key defaults to the number 0 before
mapping. An item with both prices missing whose insert succeeds is
persisted with buy 0, sell 0, rate 0 and diff 0; an item missing only
compra is persisted with buy 0, sell v, rate v / 2, diff v. Every persisted
row of the fetch path carries definite (non-null) prices by construction. -/
theorem C10_missing_prices_default_zero :
    (∀ (g : Gateway) (st : RunState) (kvs : List (String × Json)),
      kvs.lookup ("compra") = none → kvs.lookup ("venta") = none →
      g st.calls = none →
      processItem g st (.obj kvs) =
        ({ st with
            calls := st.calls + 1
            inserted := st.inserted + 1
            exchanges := st.exchanges ++ [mkRateObj kvs]
            persisted := st.persisted ++
              [⟨(mkRateObj kvs).casa, 0, 0, 0, 0⟩] }, none)) ∧
    (∀ (g : Gateway) (st : RunState) (kvs : List (String × Json)) (v : ℚ),
      kvs.lookup ("compra") = none → kvs.lookup ("venta") = some (.num v) →
      g st.calls = none →
      processItem g st (.obj kvs) =
        ({ st with
            calls := st.calls + 1
            inserted := st.inserted + 1
            exchanges := st.exchanges ++ [mkRateObj kvs]
            persisted := st.persisted ++
              [⟨(mkRateObj kvs).casa, 0, v, v / 2, v⟩] }, none)) := by
  constructor
  · intro g st kvs h1 h2 hg
    have := C4_rate_diff_exact g st kvs 0 0 (by simp [getD, h1]) (by simp [getD, h2]) hg
    simpa using this
  · intro g st kvs v h1 h2 hg
    have := C4_rate_diff_exact g st kvs 0 v (by simp [getD, h1]) (by simp [getD, h2]) hg
    simpa using this

/-- Witness for C10: an item with no keys at all persists the all-zero row
under the default casa, and an item with only venta persists buy 0. -/
theorem C10_missing_prices_default_zero_witness :
    processItem gAllOk initState (.obj []) =
      ({ calls := 1, inserted := 1, errors := [], exchanges := [mkRateObj []],
         persisted := [⟨.str "unknown", 0, 0, 0, 0⟩] }, none) ∧
    processItem gAllOk initState (.obj [("venta", .num 10)]) =
      ({ calls := 1, inserted := 1, errors := [],
         exchanges := [mkRateObj [("venta", .num 10)]],
         persisted := [⟨.str "unknown", 0, 10, 10 / 2, 10⟩] }, none) ∧
    ((10 : ℚ) / 2) = 5 :=
  ⟨C10_missing_prices_default_zero.1 gAllOk initState [] rfl rfl rfl,
    C10_missing_prices_default_zero.2 gAllOk initState [("venta", .num 10)] 10 rfl rfl rfl,
    by norm_num⟩

end ArChange
